import Mathlib

/-!
Shallow embedding of the gorm-zerolog adapter (`logger.go`) and proofs of
the specified properties of its level filtering and `Trace` classification.

Modelling conventions:
* `logger.LogLevel` from gorm is an integer type with constants
  `Silent = 1`, `Error = 2`, `Warn = 3`, `Info = 4`; we model it as `Int`.
* `time.Duration` is an `int64` count of nanoseconds; we model durations
  and elapsed times as `Int` nanoseconds.
* A Go `error` value is `Option GoError`, where `GoError.isNotFound`
  models `errors.Is(err, logger.ErrRecordNotFound)` and `GoError.msg`
  models the error's `%v`/`%s` rendering.
* A zerolog event under construction is opaque to the adapter; what the
  adapter observes of an emission is the target level, the attached
  static fields, and the finalized message, so an emitted `Event` is
  that triple.  The per-level constructor functions in the `loggers` map
  are external zerolog closures; the adapter only looks them up by key,
  so the map is modelled by its key set (`Int → Bool`).
* Side effects become return values: `log` returns `Option Event`
  (`none` when nothing is emitted) and `Trace` returns the events of its
  three emission sites plus a flag recording whether the lazy query
  callback `fc` was invoked.
* `fileWithLineNum()` walks the runtime stack; its result enters the
  messages as an opaque string, so `Trace` takes it as the `callsite`
  parameter.
* `Msgf` printf-formatting is modelled per format string: the three
  trace format constants become explicit concatenation functions, and
  `%.3f` applied to `float64(elapsed.Nanoseconds())/1e6` is modelled by
  exact rounding of `ns/1000` to thousandths of a millisecond
  (`fmtMs`); no claim depends on those digits, only on the surrounding
  literal text.
-/

namespace GormZerolog

/-- gorm `logger.Silent` (= 1). -/
def silentLevel : Int := 1

/-- gorm `logger.Error` (= 2). -/
def errorLevel : Int := 2

/-- gorm `logger.Warn` (= 3). -/
def warnLevel : Int := 3

/-- gorm `logger.Info` (= 4). -/
def infoLevel : Int := 4

/-- A non-nil Go error as `Trace` observes it: whether
`errors.Is(err, logger.ErrRecordNotFound)` holds, and its rendered text. -/
structure GoError where
  isNotFound : Bool
  msg : String
deriving DecidableEq

/-- An emitted log event as observed through the `Event` interface:
the level it was constructed at, the static fields attached via `Str`,
and the message finalized via `Msgf`. -/
structure Event where
  level : Int
  fields : List (String × String)
  msg : String
deriving DecidableEq

/-- The `GormLogger` struct from `logger.go`.  `loggers` records which
levels have a constructor registered (the constructors themselves are
external zerolog closures). -/
structure GormLogger where
  logLevel : Int
  ignoreRecordNotFoundErr : Bool
  slowThreshold : Int
  loggers : Int → Bool
  additionalData : List (String × String)

/-- The constructor `NewGormLogger()`: level `logger.Info`, slow threshold 200ms,
constructors registered for Info, Warn and Error; the remaining fields
take Go zero values (`false`, nil map). -/
def NewGormLogger : GormLogger :=
  { logLevel := infoLevel
    ignoreRecordNotFoundErr := false
    slowThreshold := 200 * 1000000
    loggers := fun lv => lv == infoLevel || lv == warnLevel || lv == errorLevel
    additionalData := [] }

/-- Setter `WithInfo`: registers a constructor under key `logger.Info`. -/
def GormLogger.WithInfo (l : GormLogger) : GormLogger :=
  { l with loggers := fun lv => if lv == infoLevel then true else l.loggers lv }

/-- Setter `WithWarn`: registers a constructor under key `logger.Warn`. -/
def GormLogger.WithWarn (l : GormLogger) : GormLogger :=
  { l with loggers := fun lv => if lv == warnLevel then true else l.loggers lv }

/-- Setter `WithError`: registers a constructor under key `logger.Error`. -/
def GormLogger.WithError (l : GormLogger) : GormLogger :=
  { l with loggers := fun lv => if lv == errorLevel then true else l.loggers lv }

/-- Setter `IgnoreRecordNotFoundError`. -/
def GormLogger.IgnoreRecordNotFoundError (l : GormLogger) (b : Bool) : GormLogger :=
  { l with ignoreRecordNotFoundErr := b }

/-- Setter `LogMode`. -/
def GormLogger.LogMode (l : GormLogger) (logLevel : Int) : GormLogger :=
  { l with logLevel := logLevel }

/-- Setter `SlowThreshold`. -/
def GormLogger.SlowThreshold (l : GormLogger) (slowThreshold : Int) : GormLogger :=
  { l with slowThreshold := slowThreshold }

/-- The private `log` helper: emits iff `l.logLevel >= logLevel` and a
constructor is registered for `logLevel`; the event carries every
`AdditionalData` pair (attached by `Str` in the range loop) and the
message finalized by `Msgf`.  `msg` here is the already-formatted
message (`Msgf`'s printf step is external zerolog behaviour; `Trace`
below formats its messages explicitly). -/
def GormLogger.log (l : GormLogger) (logLevel : Int) (msg : String) : Option Event :=
  if l.logLevel ≥ logLevel then
    if l.loggers logLevel then
      some { level := logLevel, fields := l.additionalData, msg := msg }
    else none
  else none

/-- Method `Info(ctx, msg, data...)` (ctx unused; `msg` pre-formatted). -/
def GormLogger.Info (l : GormLogger) (msg : String) : Option Event :=
  l.log infoLevel msg

/-- Method `Warn(ctx, msg, data...)` (ctx unused; `msg` pre-formatted). -/
def GormLogger.Warn (l : GormLogger) (msg : String) : Option Event :=
  l.log warnLevel msg

/-- Method `Error(ctx, msg, data...)` (ctx unused; `msg` pre-formatted). -/
def GormLogger.Error (l : GormLogger) (msg : String) : Option Event :=
  l.log errorLevel msg

/-- Left-pad to three digits (for the `.3f` fractional part). -/
def pad3 (n : Nat) : String :=
  if n < 10 then "00" ++ toString n
  else if n < 100 then "0" ++ toString n
  else toString n

/-- Milliseconds with three decimals for a nonnegative nanosecond count:
round `n / 1000` to the nearest integer count of thousandths of a
millisecond (ties to even, as printf rounding of the float does in the
exact cases) and print `whole.frac`. -/
def fmtMsNat (n : Nat) : String :=
  let q := n / 1000
  let r := n % 1000
  let t := if 500 < r || (r == 500 && q % 2 == 1) then q + 1 else q
  toString (t / 1000) ++ "." ++ pad3 (t % 1000)

/-- Models `%.3f` applied to `float64(elapsed.Nanoseconds())/1e6`. -/
def fmtMs (ns : Int) : String :=
  if ns < 0 then "-" ++ fmtMsNat ns.natAbs else fmtMsNat ns.natAbs

/-- One step of Go's `fmtFrac`: peel `prec` least-significant decimal
digits of `v`, dropping trailing zeros, prefixing `.` if any digit was
printed; returns the printed fraction (left-to-right) and the remaining
value. -/
def fmtFracGo : Nat → Nat → Bool → List Char → List Char × Nat
  | v, 0, print, acc => (if print then '.' :: acc else acc, v)
  | v, i + 1, print, acc =>
    let digit := v % 10
    let keep := print || decide (digit ≠ 0)
    fmtFracGo (v / 10) i keep (if keep then Char.ofNat (48 + digit) :: acc else acc)

/-- Go `time.Duration.String()` (the `%v` rendering of a duration),
translated from the standard library: sub-second durations use
`ns`/`µs`/`ms` units with trailing-zero-free fractions; otherwise
`[h][m]s` with up to nine fractional digits. -/
def durationString (d : Int) : String :=
  if d == 0 then "0s"
  else
    let u := d.natAbs
    let core :=
      if u < 1000000000 then
        let pu : Nat × String :=
          if u < 1000 then (0, "ns")
          else if u < 1000000 then (3, "µs")
          else (6, "ms")
        let fv := fmtFracGo u pu.1 false []
        String.mk (Nat.toDigits 10 fv.2) ++ String.mk fv.1 ++ pu.2
      else
        let fv := fmtFracGo u 9 false []
        let secs := String.mk (Nat.toDigits 10 (fv.2 % 60)) ++ String.mk fv.1 ++ "s"
        let m := fv.2 / 60
        if m == 0 then secs
        else
          let mins := String.mk (Nat.toDigits 10 (m % 60)) ++ "m" ++ secs
          let h := m / 60
          if h == 0 then mins else String.mk (Nat.toDigits 10 h) ++ "h" ++ mins
    if d < 0 then "-" ++ core else core

/-- The `%v` rendering of the `rowsAffected` value in `Trace`: the
string `"-"` when `rows == -1`, otherwise the decimal form of the
`int64`. -/
def rowsRendered (rows : Int) : String :=
  if rows == -1 then "-" else toString rows

/-- Format `traceErrMsg = "%s %s\n[%.3fms] [rows:%v] %s"` filled in argument
order (callsite, err, elapsed ms, rows, sql). -/
def traceErrFormat (callsite errStr ms rowsStr sql : String) : String :=
  callsite ++ " " ++ errStr ++ "\n[" ++ ms ++ "ms] [rows:" ++ rowsStr ++ "] " ++ sql

/-- Format `traceWarnMsg = "%s %s\n[%.3fms] [rows:%v] %s"` filled in argument
order (callsite, slow-log string, elapsed ms, rows, sql). -/
def traceWarnFormat (callsite slowLog ms rowsStr sql : String) : String :=
  callsite ++ " " ++ slowLog ++ "\n[" ++ ms ++ "ms] [rows:" ++ rowsStr ++ "] " ++ sql

/-- Format `traceInfoMsg = "%s\n[%.3fms] [rows:%v] %s"` filled in argument
order (callsite, elapsed ms, rows, sql). -/
def traceInfoFormat (callsite ms rowsStr sql : String) : String :=
  callsite ++ "\n[" ++ ms ++ "ms] [rows:" ++ rowsStr ++ "] " ++ sql

/-- The condition of the first `switch` case in `Trace`:
`err != nil && (!errors.Is(err, logger.ErrRecordNotFound) || !l.ignoreRecordNotFoundErr)`. -/
def errPathCond (l : GormLogger) (err : Option GoError) : Bool :=
  match err with
  | none => false
  | some e => !e.isNotFound || !l.ignoreRecordNotFoundErr

/-- The `%v` rendering of the error in the error-path message. -/
def errString : Option GoError → String
  | none => ""
  | some e => e.msg

/-- Everything a `Trace` call emits, plus whether it invoked the lazy
query callback `fc`. -/
structure TraceResult where
  errorEvent : Option Event
  warnEvent : Option Event
  infoEvent : Option Event
  callbackInvoked : Bool
deriving DecidableEq

/-- Method `Trace(ctx, begin, fc, err)`.  `elapsed` stands for
`time.Since(begin)` in nanoseconds; `sql` and `rows` are what `fc()`
returns when invoked; `callsite` is `fileWithLineNum()`'s result.  The
Go `switch` makes the error and slow cases mutually exclusive, and the
Info emission follows unconditionally. -/
def GormLogger.Trace (l : GormLogger) (elapsed : Int) (sql : String) (rows : Int)
    (err : Option GoError) (callsite : String) : TraceResult :=
  if l.logLevel ≤ silentLevel then
    { errorEvent := none, warnEvent := none, infoEvent := none, callbackInvoked := false }
  else
    let ms := fmtMs elapsed
    let rowsStr := rowsRendered rows
    let errFired := errPathCond l err
    let errorEvent :=
      if errFired then
        l.log errorLevel (traceErrFormat callsite (errString err) ms rowsStr sql)
      else none
    let slowFired := !errFired && decide (l.slowThreshold < elapsed) && !(l.slowThreshold == 0)
    let warnEvent :=
      if slowFired then
        l.log warnLevel
          (traceWarnFormat callsite ("SLOW SQL >= " ++ durationString l.slowThreshold) ms rowsStr sql)
      else none
    let infoEvent := l.log infoLevel (traceInfoFormat callsite ms rowsStr sql)
    { errorEvent := errorEvent, warnEvent := warnEvent, infoEvent := infoEvent,
      callbackInvoked := true }

/-- Predicate: `sub` occurs as a contiguous substring of `s`. -/
def strContains (s sub : String) : Prop :=
  ∃ pre post, s = pre ++ sub ++ post

/-! ## Supporting lemmas -/

/-- Unfolding `Trace`'s error emission site below the Silent guard. -/
theorem trace_errorEvent_eq (l : GormLogger) (elapsed : Int) (sql : String) (rows : Int)
    (err : Option GoError) (callsite : String) (h : ¬ l.logLevel ≤ silentLevel) :
    (l.Trace elapsed sql rows err callsite).errorEvent =
      if errPathCond l err then
        l.log errorLevel
          (traceErrFormat callsite (errString err) (fmtMs elapsed) (rowsRendered rows) sql)
      else none := by
  simp only [GormLogger.Trace, if_neg h]

/-- Unfolding `Trace`'s slow-query emission site below the Silent guard. -/
theorem trace_warnEvent_eq (l : GormLogger) (elapsed : Int) (sql : String) (rows : Int)
    (err : Option GoError) (callsite : String) (h : ¬ l.logLevel ≤ silentLevel) :
    (l.Trace elapsed sql rows err callsite).warnEvent =
      if !errPathCond l err && decide (l.slowThreshold < elapsed) && !(l.slowThreshold == 0) then
        l.log warnLevel
          (traceWarnFormat callsite ("SLOW SQL >= " ++ durationString l.slowThreshold)
            (fmtMs elapsed) (rowsRendered rows) sql)
      else none := by
  simp only [GormLogger.Trace, if_neg h]

/-- Unfolding `Trace`'s unconditional Info emission site below the Silent guard. -/
theorem trace_infoEvent_eq (l : GormLogger) (elapsed : Int) (sql : String) (rows : Int)
    (err : Option GoError) (callsite : String) (h : ¬ l.logLevel ≤ silentLevel) :
    (l.Trace elapsed sql rows err callsite).infoEvent =
      l.log infoLevel (traceInfoFormat callsite (fmtMs elapsed) (rowsRendered rows) sql) := by
  simp only [GormLogger.Trace, if_neg h]

/-- The `log` helper emits exactly when the configured level is at or
above the target and a constructor is registered. -/
theorem log_isSome_iff (l : GormLogger) (lv : Int) (msg : String) :
    (l.log lv msg).isSome = true ↔ lv ≤ l.logLevel ∧ l.loggers lv = true := by
  by_cases h1 : l.logLevel ≥ lv <;> by_cases h2 : l.loggers lv = true <;>
    simp [GormLogger.log, h1, h2]

/-- What an event emitted by `log` looks like. -/
theorem log_some_spec (l : GormLogger) (lv : Int) (msg : String) (ev : Event)
    (h : l.log lv msg = some ev) :
    ev.level = lv ∧ ev.fields = l.additionalData ∧ ev.msg = msg
    ∧ lv ≤ l.logLevel ∧ l.loggers lv = true := by
  by_cases h1 : l.logLevel ≥ lv
  · by_cases h2 : l.loggers lv = true
    · simp only [GormLogger.log, if_pos h1, h2, if_pos, Option.some.injEq] at h
      subst h
      exact ⟨rfl, rfl, rfl, h1, h2⟩
    · simp [GormLogger.log, h1, h2] at h
  · simp [GormLogger.log, h1] at h

/-- The second `%s` of the warn format is a substring of the message. -/
theorem traceWarnFormat_contains_slowLog (callsite slowLog ms rowsStr sql : String) :
    strContains (traceWarnFormat callsite slowLog ms rowsStr sql) slowLog := by
  refine ⟨callsite ++ " ", "\n[" ++ ms ++ "ms] [rows:" ++ rowsStr ++ "] " ++ sql, ?_⟩
  simp [traceWarnFormat, String.append_assoc]

/-- Any message of the shape shared by the three trace formats contains
its bracketed rows field. -/
theorem rows_fmt_contains (a ms r s : String) :
    strContains (a ++ "\n[" ++ ms ++ "ms] [rows:" ++ r ++ "] " ++ s) ("[rows:" ++ r ++ "]") := by
  refine ⟨a ++ "\n[" ++ ms ++ "ms] ", " " ++ s, ?_⟩
  have h1 : ("ms] [rows:" : String) = "ms] " ++ "[rows:" := by decide
  have h2 : ("] " : String) = "]" ++ " " := by decide
  rw [h1, h2]
  simp only [String.append_assoc]

/-- The constructor-registration map only ever grows: none of the
configuration setters can remove a registered constructor, so every
logger reachable from `NewGormLogger` through the package API keeps
constructors for Info, Warn and Error. -/
theorem setters_preserve_loggers (l : GormLogger) (lv n d : Int) (b : Bool)
    (h : l.loggers lv = true) :
    l.WithInfo.loggers lv = true ∧ l.WithWarn.loggers lv = true
    ∧ l.WithError.loggers lv = true ∧ (l.LogMode n).loggers lv = true
    ∧ (l.SlowThreshold d).loggers lv = true
    ∧ (l.IgnoreRecordNotFoundError b).loggers lv = true := by
  refine ⟨?_, ?_, ?_, h, h, h⟩ <;>
    simp [GormLogger.WithInfo, GormLogger.WithWarn, GormLogger.WithError, h]

/-! ## Claims -/

/-- C1: for a `Trace` call with a non-nil error, configured level at or
above Error (and, as for every logger reachable through the package API,
an Error constructor registered), an Error-level event is emitted iff
the error is not the record-not-found sentinel or the ignore-flag is
false; in particular the sentinel with ignore-flag true yields no
Error event, and ignore-flag false always yields one. -/
theorem trace_error_event_iff (l : GormLogger) (e : GoError) (elapsed rows : Int)
    (sql callsite : String) (hlv : errorLevel ≤ l.logLevel) (hc : l.loggers errorLevel = true) :
    (l.Trace elapsed sql rows (some e) callsite).errorEvent.isSome = true ↔
      e.isNotFound = false ∨ l.ignoreRecordNotFoundErr = false := by
  have hns : ¬ l.logLevel ≤ silentLevel := by
    simp only [silentLevel]
    simp only [errorLevel] at hlv
    omega
  rw [trace_errorEvent_eq _ _ _ _ _ _ hns]
  by_cases hn : e.isNotFound = true <;> by_cases hi : l.ignoreRecordNotFoundErr = true <;>
    simp [errPathCond, hn, hi, GormLogger.log, hc, hlv]

theorem trace_error_event_iff_witness :
    ((NewGormLogger.Trace 1000 "SELECT 1" 3 (some { isNotFound := false, msg := "boom" })
      "app.go:7").errorEvent).isSome = true :=
  (trace_error_event_iff NewGormLogger { isNotFound := false, msg := "boom" } 1000 3
    "SELECT 1" "app.go:7" (by decide) (by decide)).mpr (Or.inl rfl)

/-- C2: with configured level above Silent (and an Info constructor
registered), `Trace`'s Informational emission site is reached regardless
of the error and slow classification and actually emits iff the
configured level is at or above Info; in particular a call whose error
condition fires at level at or above Info (with an Error constructor
registered) produces both an Error event and an Informational event. -/
theorem trace_info_always_attempted (l : GormLogger) (elapsed rows : Int)
    (err : Option GoError) (sql callsite : String)
    (hs : silentLevel < l.logLevel) (hci : l.loggers infoLevel = true) :
    ((l.Trace elapsed sql rows err callsite).infoEvent.isSome = true ↔ infoLevel ≤ l.logLevel)
    ∧ (infoLevel ≤ l.logLevel → errPathCond l err = true → l.loggers errorLevel = true →
        (l.Trace elapsed sql rows err callsite).errorEvent.isSome = true
        ∧ (l.Trace elapsed sql rows err callsite).infoEvent.isSome = true) := by
  have hns : ¬ l.logLevel ≤ silentLevel := not_le.mpr hs
  constructor
  · rw [trace_infoEvent_eq _ _ _ _ _ _ hns, log_isSome_iff]
    simp [hci]
  · intro h4 herr hce
    constructor
    · rw [trace_errorEvent_eq _ _ _ _ _ _ hns, herr]
      simp only [if_true]
      rw [log_isSome_iff]
      refine ⟨?_, hce⟩
      simp only [errorLevel]
      simp only [infoLevel] at h4
      omega
    · rw [trace_infoEvent_eq _ _ _ _ _ _ hns, log_isSome_iff]
      exact ⟨h4, hci⟩

theorem trace_info_always_attempted_witness :
    ((NewGormLogger.Trace 1000 "SELECT 1" 3 (some { isNotFound := false, msg := "boom" })
      "app.go:7").infoEvent).isSome = true :=
  (trace_info_always_attempted NewGormLogger 1000 3 (some { isNotFound := false, msg := "boom" })
    "SELECT 1" "app.go:7" (by decide) (by decide)).1.mpr (by decide)

/-- C3, counterexample: in the disk-full scenario (level Info, slow
threshold 200ms, ignore-flag true, generic error, elapsed 10ms,
rows -1), the claim's "zero Informational events" is false: the
Informational emission after the switch fires because the configured
level is Info. -/
theorem trace_disk_full_info_emitted :
    ((NewGormLogger.IgnoreRecordNotFoundError true).Trace 10000000 "INSERT ..." (-1)
      (some { isNotFound := false, msg := "disk full" }) "main.go:10").infoEvent ≠ none := by
  decide

/-- C3, amended: in the disk-full scenario exactly one Error event is
produced, containing "disk full" and "[rows:-]", zero Warning events,
and one Informational event (not zero: the Info emission follows the
switch unconditionally). -/
theorem trace_disk_full_scenario :
    ∃ ev : Event,
      ((NewGormLogger.IgnoreRecordNotFoundError true).Trace 10000000 "INSERT ..." (-1)
        (some { isNotFound := false, msg := "disk full" }) "main.go:10").errorEvent = some ev
      ∧ strContains ev.msg "disk full"
      ∧ strContains ev.msg "[rows:-]"
      ∧ ((NewGormLogger.IgnoreRecordNotFoundError true).Trace 10000000 "INSERT ..." (-1)
          (some { isNotFound := false, msg := "disk full" }) "main.go:10").warnEvent = none
      ∧ ((NewGormLogger.IgnoreRecordNotFoundError true).Trace 10000000 "INSERT ..." (-1)
          (some { isNotFound := false, msg := "disk full" }) "main.go:10").infoEvent.isSome
          = true := by
  refine ⟨{ level := errorLevel, fields := [],
            msg := "main.go:10 disk full\n[10.000ms] [rows:-] INSERT ..." },
          by decide, ?_, ?_, by decide, by decide⟩
  · exact ⟨"main.go:10 ", "\n[10.000ms] [rows:-] INSERT ...", by decide⟩
  · exact ⟨"main.go:10 disk full\n[10.000ms] ", " INSERT ...", by decide⟩

/-- C4: with the configured level Silent, `Info`, `Warn`, `Error` and
`Trace` all emit nothing, including `Trace`'s error path with a non-nil
error present. -/
theorem silent_suppresses_all (l : GormLogger) (msg sql callsite : String)
    (elapsed rows : Int) (err : Option GoError) (h : l.logLevel = silentLevel) :
    l.Info msg = none ∧ l.Warn msg = none ∧ l.Error msg = none
    ∧ l.Trace elapsed sql rows err callsite =
        { errorEvent := none, warnEvent := none, infoEvent := none,
          callbackInvoked := false } := by
  refine ⟨?_, ?_, ?_, ?_⟩ <;>
    simp [GormLogger.Info, GormLogger.Warn, GormLogger.Error, GormLogger.log,
      GormLogger.Trace, h, silentLevel, infoLevel, warnLevel, errorLevel]

theorem silent_suppresses_all_witness :
    (NewGormLogger.LogMode silentLevel).Trace 5 "q" 0 (some { isNotFound := false, msg := "m" })
        "c" =
      { errorEvent := none, warnEvent := none, infoEvent := none, callbackInvoked := false } :=
  (silent_suppresses_all (NewGormLogger.LogMode silentLevel) "m" "q" "c" 5 0
    (some { isNotFound := false, msg := "m" }) rfl).2.2.2

/-- C5: a `Trace` call at Silent level returns the immediate-return
result: no emission site fires and the lazy query callback is never
invoked. -/
theorem silent_trace_no_work (l : GormLogger) (elapsed rows : Int)
    (err : Option GoError) (sql callsite : String) (h : l.logLevel = silentLevel) :
    l.Trace elapsed sql rows err callsite =
      { errorEvent := none, warnEvent := none, infoEvent := none, callbackInvoked := false }
    ∧ (l.Trace elapsed sql rows err callsite).callbackInvoked = false := by
  have heq : l.Trace elapsed sql rows err callsite =
      { errorEvent := none, warnEvent := none, infoEvent := none,
        callbackInvoked := false } := by
    simp [GormLogger.Trace, h, silentLevel]
  exact ⟨heq, by rw [heq]⟩

theorem silent_trace_no_work_witness :
    ((NewGormLogger.LogMode silentLevel).Trace 7 "SELECT 1" 2 none "c").callbackInvoked
      = false :=
  (silent_trace_no_work (NewGormLogger.LogMode silentLevel) 7 2 none "SELECT 1" "c" rfl).2

/-- C6: with configured level at or above Warning and a Warn constructor
registered, `Trace`'s slow-query Warning event appears iff the error
condition did not fire, elapsed strictly exceeds the slow threshold and
the threshold is non-zero; a zero threshold disables the slow path; and
any emitted Warning event's message contains the literal
`SLOW SQL >= ` followed by the rendered threshold, with no Error event
produced by the same call. -/
theorem slow_path_characterization (l : GormLogger) (elapsed rows : Int)
    (err : Option GoError) (sql callsite : String)
    (hlv : warnLevel ≤ l.logLevel) (hcw : l.loggers warnLevel = true) :
    ((l.Trace elapsed sql rows err callsite).warnEvent.isSome = true ↔
      errPathCond l err = false ∧ l.slowThreshold < elapsed ∧ l.slowThreshold ≠ 0)
    ∧ (l.slowThreshold = 0 → (l.Trace elapsed sql rows err callsite).warnEvent = none)
    ∧ (∀ ev, (l.Trace elapsed sql rows err callsite).warnEvent = some ev →
        strContains ev.msg ("SLOW SQL >= " ++ durationString l.slowThreshold)
        ∧ (l.Trace elapsed sql rows err callsite).errorEvent = none) := by
  have hns : ¬ l.logLevel ≤ silentLevel := by
    simp only [silentLevel]
    simp only [warnLevel] at hlv
    omega
  refine ⟨?_, ?_, ?_⟩
  · rw [trace_warnEvent_eq _ _ _ _ _ _ hns]
    by_cases he : errPathCond l err = true <;>
      by_cases ht : l.slowThreshold < elapsed <;>
      by_cases hz : l.slowThreshold = 0 <;>
      simp [he, ht, hz, log_isSome_iff, hcw, hlv]
  · intro hz
    rw [trace_warnEvent_eq _ _ _ _ _ _ hns]
    simp [hz]
  · intro ev hev
    rw [trace_warnEvent_eq _ _ _ _ _ _ hns] at hev
    by_cases hcond :
        (!errPathCond l err && decide (l.slowThreshold < elapsed)
          && !(l.slowThreshold == 0)) = true
    · rw [if_pos hcond] at hev
      obtain ⟨-, -, hmsg, -, -⟩ := log_some_spec _ _ _ _ hev
      have herr : errPathCond l err = false := by
        rcases Bool.and_eq_true .. |>.mp (Bool.and_eq_true .. |>.mp hcond).1 with ⟨h1, -⟩
        simpa using h1
      refine ⟨?_, ?_⟩
      · rw [hmsg]
        exact traceWarnFormat_contains_slowLog ..
      · rw [trace_errorEvent_eq _ _ _ _ _ _ hns, herr]
        simp
    · rw [if_neg hcond] at hev
      cases hev

theorem slow_path_characterization_witness :
    ((NewGormLogger.Trace 300000000 "SELECT 1" 3 none "c").warnEvent).isSome = true :=
  (slow_path_characterization NewGormLogger 300000000 3 none "SELECT 1" "c"
    (by decide) (by decide)).1.mpr ⟨rfl, by decide, by decide⟩

/-- C7: every event a `Trace` call emits renders the rows field as
`[rows:<r>]` where `<r>` is the placeholder `-` when the callback
returned -1 and the integer's decimal form otherwise (including 0 and
negative values other than -1). -/
theorem trace_rows_rendering (l : GormLogger) (elapsed rows : Int)
    (err : Option GoError) (sql callsite : String) (ev : Event)
    (hev : (l.Trace elapsed sql rows err callsite).errorEvent = some ev
      ∨ (l.Trace elapsed sql rows err callsite).warnEvent = some ev
      ∨ (l.Trace elapsed sql rows err callsite).infoEvent = some ev) :
    strContains ev.msg ("[rows:" ++ rowsRendered rows ++ "]")
    ∧ rowsRendered (-1) = "-"
    ∧ (rows ≠ -1 → rowsRendered rows = toString rows) := by
  have hrr : ∀ n : Int, n ≠ -1 → rowsRendered n = toString n := by
    intro n hn
    simp [rowsRendered, hn]
  refine ⟨?_, rfl, hrr rows⟩
  by_cases hns : l.logLevel ≤ silentLevel
  · exfalso
    have : l.Trace elapsed sql rows err callsite =
        { errorEvent := none, warnEvent := none, infoEvent := none,
          callbackInvoked := false } := by
      simp [GormLogger.Trace, hns]
    rw [this] at hev
    rcases hev with h | h | h <;> cases h
  · rcases hev with h | h | h
    · rw [trace_errorEvent_eq _ _ _ _ _ _ hns] at h
      by_cases hc : errPathCond l err = true
      · rw [if_pos hc] at h
        obtain ⟨-, -, hmsg, -, -⟩ := log_some_spec _ _ _ _ h
        rw [hmsg]
        exact rows_fmt_contains ..
      · rw [if_neg hc] at h
        cases h
    · rw [trace_warnEvent_eq _ _ _ _ _ _ hns] at h
      by_cases hc :
          (!errPathCond l err && decide (l.slowThreshold < elapsed)
            && !(l.slowThreshold == 0)) = true
      · rw [if_pos hc] at h
        obtain ⟨-, -, hmsg, -, -⟩ := log_some_spec _ _ _ _ h
        rw [hmsg]
        exact rows_fmt_contains ..
      · rw [if_neg hc] at h
        cases h
    · rw [trace_infoEvent_eq _ _ _ _ _ _ hns] at h
      obtain ⟨-, -, hmsg, -, -⟩ := log_some_spec _ _ _ _ h
      rw [hmsg]
      exact rows_fmt_contains ..

theorem trace_rows_rendering_witness :
    strContains "c\n[0.001ms] [rows:-2] q" ("[rows:" ++ rowsRendered (-2) ++ "]") :=
  (trace_rows_rendering NewGormLogger 1000 (-2) none "q" "c"
    { level := infoLevel, fields := [], msg := "c\n[0.001ms] [rows:-2] q" }
    (Or.inr (Or.inr (by decide)))).1

/-- C8: the `log` helper emits iff the configured level is at or above
the target level and a constructor is registered for it; a missing
constructor yields a silent no-op; and every emitted event carries all
static extra fields, the finalized message and the target level. -/
theorem log_emission_gate (l : GormLogger) (lv : Int) (msg : String) :
    ((l.log lv msg).isSome = true ↔ lv ≤ l.logLevel ∧ l.loggers lv = true)
    ∧ (l.loggers lv = false → l.log lv msg = none)
    ∧ ∀ ev, l.log lv msg = some ev →
        (∀ p ∈ l.additionalData, p ∈ ev.fields) ∧ ev.msg = msg ∧ ev.level = lv := by
  refine ⟨log_isSome_iff l lv msg, ?_, ?_⟩
  · intro h
    simp [GormLogger.log, h]
  · intro ev h
    obtain ⟨h1, h2, h3, -, -⟩ := log_some_spec l lv msg ev h
    exact ⟨fun p hp => h2 ▸ hp, h3, h1⟩

/-- C9: `NewGormLogger` returns the adapter configured with minimum
level Info, slow threshold 200 milliseconds, ignore-not-found flag
false, and constructors registered for Info, Warn and Error. -/
theorem newGormLogger_defaults :
    NewGormLogger.logLevel = infoLevel
    ∧ NewGormLogger.slowThreshold = 200 * 1000000
    ∧ NewGormLogger.ignoreRecordNotFoundErr = false
    ∧ NewGormLogger.loggers infoLevel = true
    ∧ NewGormLogger.loggers warnLevel = true
    ∧ NewGormLogger.loggers errorLevel = true := by
  refine ⟨rfl, rfl, rfl, by decide, by decide, by decide⟩

/-- C10: a strictly negative slow threshold does not disable the
slow-query classification: with a nil error, level at or above Warning
and a Warn constructor registered, every `Trace` call with non-negative
elapsed time emits a Warning event. -/
theorem negative_threshold_always_slow (l : GormLogger) (elapsed rows : Int)
    (sql callsite : String) (hlv : warnLevel ≤ l.logLevel) (hcw : l.loggers warnLevel = true)
    (hth : l.slowThreshold < 0) (he : 0 ≤ elapsed) :
    (l.Trace elapsed sql rows none callsite).warnEvent.isSome = true := by
  have hns : ¬ l.logLevel ≤ silentLevel := by
    simp only [silentLevel]
    simp only [warnLevel] at hlv
    omega
  rw [trace_warnEvent_eq _ _ _ _ _ _ hns]
  have h1 : l.slowThreshold < elapsed := lt_of_lt_of_le hth he
  have h2 : ¬ l.slowThreshold = 0 := by omega
  simp [errPathCond, h1, h2, log_isSome_iff, hcw, hlv]

theorem negative_threshold_always_slow_witness :
    (((NewGormLogger.SlowThreshold (-5)).Trace 0 "SELECT 1" 0 none "c").warnEvent).isSome
      = true :=
  negative_threshold_always_slow (NewGormLogger.SlowThreshold (-5)) 0 0 "SELECT 1" "c"
    (by decide) (by decide) (by decide) (by decide)

end GormZerolog
